import Mathlib

/-!
Verification development for the VTA Travel-Diary-Surveys trip-trace
conflation script (src/trip-trace-conflation/scripts/tds_conflation.py).

Pandas/GeoPandas tables are embedded as lists of named columns of cells; a
cell is either a scalar atom (string, integer, NaN, or an opaque object such
as a geometry or a RoadId), a Python list of atoms, or a Python tuple of
atoms.  External library behaviour (mappymatch matching, osmnx graphs,
networkx attribute lookup) is abstracted into explicit environment records
of functions, so every embedded operation stays executable.
-/

/-- Scalar value held in a single pandas cell. -/
inductive Atom where
  | str : String → Atom
  | int : Int → Atom
  | nan : Atom
  | obj : Nat → Atom
deriving DecidableEq, Repr

/-- A pandas cell: a scalar, a Python list of scalars, or a Python tuple of
scalars (tuples arise from the road_id conversion at line 257 of the script). -/
inductive Cell where
  | atom : Atom → Cell
  | list : List Atom → Cell
  | tup : List Atom → Cell
deriving DecidableEq, Repr

/-- isinstance(x, list) for a cell. Note that tuples are NOT lists. -/
def cellIsList : Cell → Bool
  | .list _ => true
  | _ => false

/-- isinstance(x, int) for a cell. -/
def cellIsInt : Cell → Bool
  | .atom (.int _) => true
  | _ => false

/-- A cell holding a Python sequence value (a list or a tuple). -/
def cellIsSeq : Cell → Bool
  | .list _ => true
  | .tup _ => true
  | _ => false

/-- Rendering of a scalar by Python str(). -/
def atomStr : Atom → String
  | .str s => s
  | .int n => toString n
  | .nan => "nan"
  | .obj k => "object#" ++ toString k

/-- Rendering of a cell by Python str(), as used when the aggregation step
stringifies list-valued cells. -/
def pyStr : Cell → String
  | .atom a => atomStr a
  | .list l => "[" ++ String.intercalate ", " (l.map atomStr) ++ "]"
  | .tup l => "(" ++ String.intercalate ", " (l.map atomStr) ++ ")"

/-- A dataframe, column oriented: column name paired with its cells. -/
abbrev Table : Type := List (String × List Cell)

/-! ## flag_trips_by_osmid (script lines 620-639) -/

/-- One row of the matched-paths table consumed by flag_trips_by_osmid:
a trip identifier and the osmid cell of one link. -/
structure FlagRow where
  trip_id : String
  osmid : Cell
deriving DecidableEq, Repr

/-- Line 634: lambda x: x if isinstance(x, (list, set, tuple)) else [x]. -/
def ensureListLike (c : Cell) : Cell :=
  match c with
  | .list l => .list l
  | .tup l => .tup l
  | .atom a => .list [a]

/-- pandas Series.explode semantics for one cell: a list-like cell yields one
row per element (an empty list-like yields a single NaN row); a scalar cell
yields itself. -/
def listLikeAtoms : Cell → List Atom
  | .list [] => [.nan]
  | .list l => l
  | .tup [] => [.nan]
  | .tup l => l
  | .atom a => [a]

/-- Line 636: explode the osmid column, keeping the trip_id of each row. -/
def pandasExplodeOsmid (rows : List FlagRow) : List (String × Atom) :=
  rows.flatMap (fun r => (listLikeAtoms r.osmid).map (fun a => (r.trip_id, a)))

/-- pandas Series.unique: first occurrences, in order. `seen` accumulates the
values already emitted. -/
def uniqueAux [DecidableEq α] (seen : List α) : List α → List α
  | [] => []
  | a :: rest =>
    if a ∈ seen then uniqueAux seen rest else a :: uniqueAux (a :: seen) rest

/-- pandas Series.unique().tolist(). -/
def uniqueList [DecidableEq α] (l : List α) : List α :=
  uniqueAux [] l

/-- Script lines 632-639, with the caller-visible state of the input table
made explicit.  The first step is matched_traces.copy(), so the osmid column
assignment on line 634 is applied to the copy and the caller's table (second
component of the result) is returned unchanged. -/
def flag_trips_by_osmid_st (matched_traces : List FlagRow) (osmid_set : List Atom) :
    List String × List FlagRow :=
  let mt := matched_traces.map (fun r => { trip_id := r.trip_id, osmid := ensureListLike r.osmid })
  let exploded := pandasExplodeOsmid mt
  let flagged_trip_ids :=
    uniqueList ((exploded.filter (fun p => decide (p.2 ∈ osmid_set))).map (fun p => p.1))
  (flagged_trip_ids, matched_traces)

/-- Script lines 620-639: the returned list of flagged trip ids. -/
def flag_trips_by_osmid (matched_traces : List FlagRow) (osmid_set : List Atom) :
    List String :=
  (flag_trips_by_osmid_st matched_traces osmid_set).1

/-- The atoms a row's osmid cell contributes after the list-wrapping of line
634 and the explode of line 636. -/
def rowAtoms (r : FlagRow) : List Atom :=
  listLikeAtoms (ensureListLike r.osmid)

/-! ## filter_trips (script lines 598-617) -/

/-- One row of the merged trip-locations table, restricted to the columns
filter_trips reads. -/
structure TripLocRow where
  trip_id : String
  mode_type : Int
  o_in_region : Int
  d_in_region : Int
deriving DecidableEq, Repr

/-- Script lines 613-617: keep car-like modes whose trip starts or ends in
the region. -/
def filter_trips (trip_locations : List TripLocRow) : List TripLocRow :=
  trip_locations.filter (fun r =>
    decide (r.mode_type ∈ ([5, 6, 8, 9, 11] : List Int)) &&
    (r.o_in_region == 1 || r.d_in_region == 1))

/-! ## Basic table operations (pandas column access) -/

/-- Number of rows of a table (all columns share one length in well-formed
tables; pandas len). -/
def tableLen (t : Table) : Nat :=
  match t with
  | [] => 0
  | (_, cells) :: _ => cells.length

/-- Column assignment df[name] = cells: replaces the column if present,
appends it otherwise. -/
def setTableCol (t : Table) (name : String) (cells : List Cell) : Table :=
  if t.any (fun p => p.1 == name) then
    t.map (fun p => if p.1 == name then (p.1, cells) else p)
  else
    t ++ [(name, cells)]

/-- Column read df[name] (empty when absent). -/
def getTableCol (t : Table) (name : String) : List Cell :=
  match t.find? (fun p => p.1 == name) with
  | some p => p.2
  | none => []

/-- df[name] = df[name].apply(f). -/
def mapTableCol (t : Table) (name : String) (f : Cell → Cell) : Table :=
  t.map (fun p => if p.1 == name then (p.1, p.2.map f) else p)

/-! ## process_trace (script lines 166-283) and its environment -/

/-- Opaque handle for a mappymatch Trace. -/
abbrev TraceH := Nat

/-- Opaque handle for a Geofence. -/
abbrev GeofenceH := Nat

/-- Opaque handle for an NxMap / networkx graph. -/
abbrev NxMapH := Nat

/-- A raised Python exception, reduced to its rendered description. -/
structure Exc where
  msg : String
deriving DecidableEq, Repr

/-- One entry of match_result.matchList: only the presence of the matched road
is inspected by the script (match.road is None). -/
structure RoadMatch where
  road : Option Nat
deriving DecidableEq, Repr

/-- The result of LCSSMatcher.match_trace, as consumed by the script: the
per-point match list plus the two library-built dataframes. -/
structure MatchResult where
  matchList : List RoadMatch
  matchesTable : Table
  pathTable : Table
deriving DecidableEq

/-- External-library behaviour used inside process_trace, as explicit
functions: geofence construction, per-trace network download, truncation of
the shared regional graph, the LCSS match itself, the road_id-to-tuple
conversion of line 257, and networkx edge-attribute lookup. -/
structure MatchEnv where
  geofenceFromTrace : TraceH → Nat → Except Exc GeofenceH
  nxMapFromGeofence : GeofenceH → Nat → Except Exc NxMapH
  regionalMap : NxMapH
  truncateGraphPolygon : NxMapH → GeofenceH → Except Exc NxMapH
  matchTrace : NxMapH → TraceH → Except Exc MatchResult
  roadIdToTuple : Cell → Cell
  edgeAttr : NxMapH → String → Cell → Option Cell

/-- The per-trace record dictionary flowing through the pipeline.  A field
value none models the key being absent (or, for unmatched_trips, never
assigned); unmatched_trips = some none models the explicit None of line 279.
-/
structure TraceDict where
  trip_id : String
  trace : TraceH
  trace_gdf : Option Table := none
  trace_line_gdf : Option Table := none
  unmatched_trips : Option (Option String) := none
  matched_gdf : Option Table := none
  matched_path_gdf : Option Table := none
deriving DecidableEq

/-- The try block of process_trace (lines 201-227): build a geofence around
the trace, then either download a fresh network for it or truncate the shared
regional graph to it, then run the LCSS match.  An exception at any stage
short-circuits to the except handler. -/
def matchAttempt (env : MatchEnv) (download_local_OSM_map : Bool) (geofence_buffer : Nat)
    (network_type : Nat) (trace : TraceH) : Except Exc (NxMapH × MatchResult) :=
  match env.geofenceFromTrace trace geofence_buffer with
  | .error e => .error e
  | .ok geofence =>
    match (if download_local_OSM_map then env.nxMapFromGeofence geofence network_type
        else env.truncateGraphPolygon env.regionalMap geofence) with
    | .error e => .error e
    | .ok nx_map =>
      match env.matchTrace nx_map trace with
      | .error e => .error e
      | .ok match_result => .ok (nx_map, match_result)

/-- The warning emitted by the except handler at lines 229-231. -/
def exceptionLogMsg (trip_id : String) (e : Exc) : String :=
  "The trace with trip_id " ++ trip_id ++ " encountered an exception: " ++ e.msg ++
    ". Adding trip to the unmatched list."

/-- The warning emitted at lines 247-249 when a null road id is found. -/
def nullRoadLogMsg (trip_id : String) : String :=
  "The trace with trip_id " ++ trip_id ++
    " has null road_ids meaning there was no match to the network. Adding to the unmatched list."

/-- Attributes joined onto the matched tables at line 269. -/
def attrColumns : List String := ["osmid", "ref", "name", "maxspeed", "highway", "bridge", "tunnel"]

/-- Lines 253-277 for one of the two matched tables: broadcast the trip id,
convert road_id cells to tuples, then map each network attribute over the
road_id column (missing attribute values become NaN, pandas Series.map). -/
def buildMatchedGdf (env : MatchEnv) (nx_map : NxMapH) (base : Table) (trip_id : String) :
    Table :=
  let t := setTableCol base "trip_id" (List.replicate (tableLen base) (.atom (.str trip_id)))
  let t := mapTableCol t "road_id" env.roadIdToTuple
  attrColumns.foldl
    (fun t attr =>
      setTableCol t attr
        ((getTableCol t "road_id").map
          (fun rid => (env.edgeAttr nx_map attr rid).getD (.atom .nan))))
    t

/-- Script lines 166-283.  Also returns the list of warning messages the call
emits; the function is total, so no exception of the try block reaches the
caller. -/
def process_trace (env : MatchEnv) (trace_dict : TraceDict) (download_local_OSM_map : Bool)
    (geofence_buffer : Nat) (network_type : Nat) : TraceDict × List String :=
  match matchAttempt env download_local_OSM_map geofence_buffer network_type trace_dict.trace with
  | .error e =>
    ({ trace_dict with unmatched_trips := some (some trace_dict.trip_id) },
     [exceptionLogMsg trace_dict.trip_id e])
  | .ok (nx_map, match_result) =>
    let road_id_check := match_result.matchList.all (fun m => m.road.isSome)
    if road_id_check = false then
      ({ trace_dict with unmatched_trips := some (some trace_dict.trip_id) },
       [nullRoadLogMsg trace_dict.trip_id])
    else
      let matched_gdf := buildMatchedGdf env nx_map match_result.matchesTable trace_dict.trip_id
      let matched_path_gdf := buildMatchedGdf env nx_map match_result.pathTable trace_dict.trip_id
      ({ trace_dict with
          unmatched_trips := some none,
          matched_gdf := some matched_gdf,
          matched_path_gdf := some matched_path_gdf }, [])

/-! ## batch_process_traces_parallel (script lines 352-426) -/

/-- The sequential branch (processes == 1, lines 389-393): process_trace over
the traces in order. -/
def seqRun (env : MatchEnv) (traces : List TraceDict) (download_local_OSM_map : Bool)
    (geofence_buffer : Nat) (network_type : Nat) : List TraceDict :=
  traces.map (fun td =>
    (process_trace env td download_local_OSM_map geofence_buffer network_type).1)

/-- Step relation for batch_process_traces_parallel.  With one process the
result is the sequential run; with several, one future is submitted per trace
and results are appended in completion-arrival order, i.e. the returned list
is some permutation of the per-trace results (each worker builds the same
regional network from the cache in init_worker, so per-trace outcomes agree
with the sequential branch). -/
inductive BatchRun (env : MatchEnv) (traces : List TraceDict) (download_local_OSM_map : Bool)
    (geofence_buffer : Nat) (network_type : Nat) : Nat → List TraceDict → Prop where
  | seq : BatchRun env traces download_local_OSM_map geofence_buffer network_type 1
      (seqRun env traces download_local_OSM_map geofence_buffer network_type)
  | par (processes : Nat) (results : List TraceDict) (hne : processes ≠ 1)
      (hperm : results.Perm
        (seqRun env traces download_local_OSM_map geofence_buffer network_type)) :
      BatchRun env traces download_local_OSM_map geofence_buffer network_type processes results

/-! ## concatenate_matched_gdfs (script lines 429-476) -/

/-- The four table kinds a trace dictionary can carry. -/
inductive MatchType where
  | trace_gdf
  | trace_line_gdf
  | matched_gdf
  | matched_path_gdf
deriving DecidableEq, Repr

/-- Dictionary lookup trace_dict[match_type], none when the key is absent. -/
def getMatchField (td : TraceDict) : MatchType → Option Table
  | .trace_gdf => td.trace_gdf
  | .trace_line_gdf => td.trace_line_gdf
  | .matched_gdf => td.matched_gdf
  | .matched_path_gdf => td.matched_path_gdf

/-- Line 449: add the per-trace sequence column. -/
def addRownum (t : Table) : Table :=
  setTableCol t "rownum" ((List.range (tableLen t)).map (fun i => .atom (.int (Int.ofNat i))))

/-- pd.concat: columns are the union of the input column names in first-seen
order; a table missing a column contributes NaN for each of its rows. -/
def pdConcat (ts : List Table) : Table :=
  let names := uniqueList (ts.flatMap (fun t => t.map (fun p => p.1)))
  names.map (fun n =>
    (n, ts.flatMap (fun t =>
      match t.find? (fun p => p.1 == n) with
      | some p => p.2
      | none => List.replicate (tableLen t) (.atom .nan))))

/-- pandas dtype of a column is object when some cell is a string, an opaque
object, a list, or a tuple (purely numeric or all-NaN columns are numeric).
-/
def dtypeIsObject (cells : List Cell) : Bool :=
  cells.any (fun c =>
    match c with
    | .atom (.str _) => true
    | .atom (.obj _) => true
    | .list _ => true
    | .tup _ => true
    | _ => false)

/-- The lambda of line 474: str(x) if isinstance(x, list) else str(x) if
isinstance(x, int) else x. -/
def listToStrCell (c : Cell) : Cell :=
  if cellIsList c then .atom (.str (pyStr c))
  else if cellIsInt c then .atom (.str (pyStr c))
  else c

/-- Script lines 429-476: gather the requested table from every trace
dictionary carrying it, add rownum, concatenate, and stringify every cell of
each object-dtype column that contains at least one Python list. -/
def concatenate_matched_gdfs (matched_traces : List TraceDict) (match_type : MatchType) :
    Table :=
  let matched_gdfs :=
    (matched_traces.filterMap (fun td => getMatchField td match_type)).map addRownum
  if matched_gdfs.isEmpty then []
  else
    let matched_gdf := pdConcat matched_gdfs
    matched_gdf.map (fun p =>
      if dtypeIsObject p.2 then
        if p.2.any cellIsList then (p.1, p.2.map listToStrCell) else p
      else p)

/-! ## nx_map_from_geojson (script lines 44-69) -/

/-- External map-source behaviour used by the network provider:
Geofence.from_geojson and NxMap.from_geofence (the construction bounded by
the region geometry). -/
structure NetProviderEnv where
  geofenceFromGeojson : String → GeofenceH
  nxMapFromGeofenceNet : GeofenceH → Nat → NxMapH

/-- State of the file at local_network_path: none when the file does not
exist, some m when it holds the serialization of map m (NxMap.to_file /
NxMap.from_file round-trip). -/
structure FileState where
  localNetworkFile : Option NxMapH
deriving DecidableEq, Repr

/-- Script lines 44-69.  Returns the NxMap, the file state after the call,
and whether a new network was constructed from the external source (the
from_geofence branch of lines 54-63 versus the from_file branch of lines
64-67). -/
def nx_map_from_geojson (env : NetProviderEnv) (geojson_path : String)
    (local_network_fs : FileState) (network_type : Nat) : NxMapH × FileState × Bool :=
  match local_network_fs.localNetworkFile with
  | none =>
    let geofence := env.geofenceFromGeojson geojson_path
    let nx_map := env.nxMapFromGeofenceNet geofence network_type
    (nx_map, { localNetworkFile := some nx_map }, true)
  | some nx_map => (nx_map, local_network_fs, false)

/-! ## Link conflation: _match_line_to_osm and conflate_with_osm
 (script lines 641-706) -/

/-- An axis-aligned bounding box (shapely geometry.bounds). -/
structure Rect where
  minx : Int
  miny : Int
  maxx : Int
  maxy : Int
deriving DecidableEq, Repr

/-- Bounding-box intersection, the predicate answered by the rtree spatial
index query sindex.intersection(bounds). -/
def rectIntersects (a b : Rect) : Bool :=
  decide (a.minx ≤ b.maxx) && decide (b.minx ≤ a.maxx) &&
  decide (a.miny ≤ b.maxy) && decide (b.miny ≤ a.maxy)

/-- Geometry operations (shapely bounds and exact distance) over an abstract
geometry type. -/
structure GeomOps (G : Type) where
  bounds : G → Rect
  dist : G → G → Int

/-- One row of the OSM edges dataframe built at line 677: edge identifier,
highway class, geometry. -/
structure OsmEdge (G : Type) where
  edgeId : Nat
  highway : String
  geometry : G
deriving DecidableEq, Repr

/-- Lines 645-650: the candidate edges whose bounding box intersects the
query line's bounding box, in dataframe order. -/
def lineCandidates {G : Type} (ops : GeomOps G) (line : G) (edges : List (OsmEdge G)) :
    List (OsmEdge G) :=
  edges.filter (fun e => rectIntersects (ops.bounds e.geometry) (ops.bounds line))

/-- pandas Series.idxmin over candidate order: the first element attaining
the minimum of f, none for the empty list. -/
def firstMinBy {α : Type} (f : α → Int) : List α → Option α
  | [] => none
  | a :: rest =>
    match firstMinBy f rest with
    | none => some a
    | some b => if f a ≤ f b then some a else some b

/-- Script lines 641-653: none when no candidate bounding box intersects,
otherwise the candidate of minimum exact distance to the line. -/
def _match_line_to_osm {G : Type} (ops : GeomOps G) (line : G)
    (edges : List (OsmEdge G)) : Option (OsmEdge G) :=
  let candidates := lineCandidates ops line edges
  if candidates.isEmpty then none
  else firstMinBy (fun e => ops.dist e.geometry line) candidates

/-- Script lines 655-706, per-feature part: optionally filter edges by
highway class, match every input line, and keep only the per-line results
that are not None (lines 692-695) — a feature with no result is silently
absent.  The completion-arrival reordering of the process pool does not
change which results are collected. -/
def conflate_with_osm {G : Type} (ops : GeomOps G) (input_lines : List G)
    (edges : List (OsmEdge G)) (osm_filter : Option (List String)) : List (OsmEdge G) :=
  let edges :=
    match osm_filter with
    | some flt => edges.filter (fun e => flt.contains e.highway)
    | none => edges
  (input_lines.map (fun line => _match_line_to_osm ops line edges)).reduceOption

/-! ## Accounting of batch results -/

/-- A trace dictionary explicitly marked by process_trace: either unmatched
(unmatched_trips set to its own trip id) or matched (unmatched_trips set to
None with both matched tables populated). -/
def accountedFor (td : TraceDict) : Prop :=
  td.unmatched_trips = some (some td.trip_id) ∨
  (td.unmatched_trips = some none ∧
    td.matched_gdf.isSome = true ∧ td.matched_path_gdf.isSome = true)

instance (td : TraceDict) : Decidable (accountedFor td) := by
  unfold accountedFor
  infer_instance

/-- Trip ids of the results marked matched (unmatched_trips is None). -/
def matchedIds (results : List TraceDict) : List String :=
  (results.filter (fun td => td.unmatched_trips == some none)).map (fun td => td.trip_id)

/-- Trip ids of the results not marked matched. -/
def unmatchedIds (results : List TraceDict) : List String :=
  (results.filter (fun td => !(td.unmatched_trips == some none))).map (fun td => td.trip_id)

/-! ## Concrete sample data for witnesses -/

/-- An empty successful match result. -/
def sampleMatchResult : MatchResult :=
  { matchList := [], matchesTable := [], pathTable := [] }

/-- An environment whose library calls all succeed. -/
def sampleEnv : MatchEnv :=
  { geofenceFromTrace := fun t _ => .ok t
    nxMapFromGeofence := fun g _ => .ok g
    regionalMap := 0
    truncateGraphPolygon := fun _ g => .ok g
    matchTrace := fun _ _ => .ok sampleMatchResult
    roadIdToTuple := fun c => c
    edgeAttr := fun _ _ _ => none }

/-- An environment whose geofence construction raises. -/
def sampleFailEnv : MatchEnv :=
  { sampleEnv with
    geofenceFromTrace := fun _ _ => .error { msg := "Geofence needs at least one coordinate" } }

/-- An environment whose match succeeds but yields a null road. -/
def sampleNullRoadEnv : MatchEnv :=
  { sampleEnv with
    matchTrace := fun _ _ =>
      .ok { matchList := [{ road := none }], matchesTable := [], pathTable := [] } }

/-- A minimal input trace dictionary. -/
def sampleTd : TraceDict := { trip_id := "T1", trace := 0 }

/-- A concrete map-source environment. -/
def sampleNetEnv : NetProviderEnv :=
  { geofenceFromGeojson := fun _ => 7
    nxMapFromGeofenceNet := fun geofence network_type => geofence + network_type }

/-- Concrete conflation scenario (spec scenario C): edge E1. -/
def sampleE1 : OsmEdge Nat := { edgeId := 1, highway := "motorway", geometry := 1 }

/-- Concrete conflation scenario: edge E2. -/
def sampleE2 : OsmEdge Nat := { edgeId := 2, highway := "motorway", geometry := 2 }

/-- The two-edge network of the conflation scenario. -/
def sampleEdges : List (OsmEdge Nat) := [sampleE1, sampleE2]

/-- Geometry operations for the conflation scenario over token geometries:
features 10, 20, 30; feature 10 shares a bounding box with edge geometry 1,
feature 20 with edge geometry 2, feature 30 is far from both. -/
def sampleOps : GeomOps Nat :=
  { bounds := fun g =>
      if g = 30 then { minx := 100, miny := 100, maxx := 105, maxy := 105 }
      else if g = 20 || g = 2 then { minx := 10, miny := 10, maxx := 15, maxy := 15 }
      else { minx := 0, miny := 0, maxx := 5, maxy := 5 }
    dist := fun a b => Int.ofNat (a + b) }

/-! ## Helper lemmas -/

theorem mem_uniqueAux [DecidableEq α] (x : α) (seen l : List α) :
    x ∈ uniqueAux seen l ↔ x ∈ l ∧ x ∉ seen := by
  induction l generalizing seen with
  | nil => simp [uniqueAux]
  | cons a rest ih =>
    by_cases ha : a ∈ seen
    · simp only [uniqueAux, if_pos ha, ih, List.mem_cons]
      constructor
      · rintro ⟨hx, hs⟩
        exact ⟨Or.inr hx, hs⟩
      · rintro ⟨hx | hx, hs⟩
        · exact absurd (hx ▸ ha) hs
        · exact ⟨hx, hs⟩
    · simp only [uniqueAux, if_neg ha, List.mem_cons, ih, not_or]
      constructor
      · rintro (rfl | ⟨hx, hxa, hs⟩)
        · exact ⟨Or.inl rfl, ha⟩
        · exact ⟨Or.inr hx, hs⟩
      · rintro ⟨rfl | hx, hs⟩
        · exact Or.inl rfl
        · by_cases hxa : x = a
          · exact Or.inl hxa
          · exact Or.inr ⟨hx, hxa, hs⟩

theorem nodup_uniqueAux [DecidableEq α] (seen l : List α) :
    (uniqueAux seen l).Nodup := by
  induction l generalizing seen with
  | nil => simp [uniqueAux]
  | cons a rest ih =>
    by_cases ha : a ∈ seen
    · simpa [uniqueAux, if_pos ha] using ih seen
    · simp only [uniqueAux, if_neg ha, List.nodup_cons]
      refine ⟨fun h => ?_, ih (a :: seen)⟩
      exact ((mem_uniqueAux a (a :: seen) rest).mp h).2 (List.mem_cons_self a seen)

theorem mem_uniqueList [DecidableEq α] (x : α) (l : List α) :
    x ∈ uniqueList l ↔ x ∈ l := by
  simp [uniqueList, mem_uniqueAux]

theorem ensureListLike_idem (c : Cell) :
    ensureListLike (ensureListLike c) = ensureListLike c := by
  cases c <;> rfl

theorem cellIsList_listToStrCell (c : Cell) : cellIsList (listToStrCell c) = false := by
  cases c with
  | atom a => cases a <;> simp [listToStrCell, cellIsList, cellIsInt]
  | list l => simp [listToStrCell, cellIsList]
  | tup l => simp [listToStrCell, cellIsList, cellIsInt]

theorem process_trace_fst_trip_id (env : MatchEnv) (td : TraceDict)
    (download_local_OSM_map : Bool) (geofence_buffer network_type : Nat) :
    (process_trace env td download_local_OSM_map geofence_buffer network_type).1.trip_id =
      td.trip_id := by
  unfold process_trace
  split
  · rfl
  · dsimp only
    split
    · rfl
    · rfl

theorem process_trace_accountedFor (env : MatchEnv) (td : TraceDict)
    (download_local_OSM_map : Bool) (geofence_buffer network_type : Nat) :
    accountedFor (process_trace env td download_local_OSM_map geofence_buffer network_type).1 := by
  unfold process_trace accountedFor
  split
  · exact Or.inl rfl
  · dsimp only
    split
    · exact Or.inl rfl
    · exact Or.inr ⟨rfl, rfl, rfl⟩

theorem seqRun_map_trip_id (env : MatchEnv) (traces : List TraceDict)
    (download_local_OSM_map : Bool) (geofence_buffer network_type : Nat) :
    (seqRun env traces download_local_OSM_map geofence_buffer network_type).map
        (fun td => td.trip_id) =
      traces.map (fun td => td.trip_id) := by
  unfold seqRun
  rw [List.map_map]
  apply List.map_congr_left
  intro td _
  exact process_trace_fst_trip_id env td download_local_OSM_map geofence_buffer network_type

/-! ## Claim theorems -/

/-- Claim C7: flag_trips_by_osmid returns exactly the trips one of whose
matched-path osmid entries (a scalar counting as the one-element list holding
it, per the explode semantics) lies in the queried osmid set. -/
theorem flag_trips_membership (tbl : List FlagRow) (s : List Atom) (t : String) :
    t ∈ flag_trips_by_osmid tbl s ↔
      ∃ r ∈ tbl, r.trip_id = t ∧ ∃ a ∈ rowAtoms r, a ∈ s := by
  simp only [flag_trips_by_osmid, flag_trips_by_osmid_st, pandasExplodeOsmid, rowAtoms,
    mem_uniqueList, List.mem_map, List.mem_filter, List.mem_flatMap, decide_eq_true_eq]
  constructor
  · rintro ⟨⟨tid, a⟩, ⟨⟨r1, ⟨r0, hr0, rfl⟩, ha⟩, hs⟩, rfl⟩
    simp only [List.mem_map] at ha
    obtain ⟨a0, ha0, heq⟩ := ha
    obtain ⟨rfl, rfl⟩ := Prod.mk.injEq .. ▸ heq
    exact ⟨r0, hr0, rfl, a0, ha0, hs⟩
  · rintro ⟨r, hr, rfl, a, ha, hs⟩
    refine ⟨(r.trip_id, a), ⟨⟨{ trip_id := r.trip_id, osmid := ensureListLike r.osmid },
      ⟨r, hr, rfl⟩, ?_⟩, hs⟩, rfl⟩
    exact ⟨a, ha, rfl⟩

/-- Witness for C7, spec scenario D: trip T1 traverses edges 1, 2, 3;
querying with edge 2 flags T1, querying with absent edge 9 flags nothing. -/
theorem flag_trips_membership_witness :
    "T1" ∈ flag_trips_by_osmid [{ trip_id := "T1", osmid := .list [.int 1, .int 2, .int 3] }]
      [.int 2] ∧
    "T1" ∉ flag_trips_by_osmid [{ trip_id := "T1", osmid := .list [.int 1, .int 2, .int 3] }]
      [.int 9] :=
  ⟨(flag_trips_membership
      [{ trip_id := "T1", osmid := .list [.int 1, .int 2, .int 3] }] [.int 2] "T1").mpr
    ⟨{ trip_id := "T1", osmid := .list [.int 1, .int 2, .int 3] }, by decide, rfl,
      .int 2, by decide, by decide⟩,
   fun h => by
    have := (flag_trips_membership
      [{ trip_id := "T1", osmid := .list [.int 1, .int 2, .int 3] }] [.int 9] "T1").mp h
    revert this
    decide⟩

/-- Claim C10: flag_trips_by_osmid treats a scalar osmid cell as the
one-element list containing it (normalizing every cell with the line-634
wrapper leaves the output unchanged), returns each flagged trip at most once,
and leaves the caller's table unmutated (the copy on line 633 absorbs the
column assignment). -/
theorem flag_trips_uniform_nodup_nomutate (tbl : List FlagRow) (s : List Atom) :
    (flag_trips_by_osmid tbl s).Nodup ∧
    flag_trips_by_osmid tbl s =
      flag_trips_by_osmid
        (tbl.map (fun r => { trip_id := r.trip_id, osmid := ensureListLike r.osmid })) s ∧
    (flag_trips_by_osmid_st tbl s).2 = tbl := by
  refine ⟨nodup_uniqueAux _ _, ?_, rfl⟩
  simp only [flag_trips_by_osmid, flag_trips_by_osmid_st, List.map_map]
  have hmap : (fun r : FlagRow =>
        ({ trip_id := r.trip_id, osmid := ensureListLike r.osmid } : FlagRow)) ∘
      (fun r : FlagRow => { trip_id := r.trip_id, osmid := ensureListLike r.osmid }) =
      fun r : FlagRow => { trip_id := r.trip_id, osmid := ensureListLike r.osmid } := by
    funext r
    simp [Function.comp, ensureListLike_idem]
  rw [hmap]

/-- Claim C9: every row returned by filter_trips has mode_type among
5, 6, 8, 9, 11 and starts or ends in the region, and the returned rows are a
sublist of the input rows — the function only filters. -/
theorem filter_trips_spec (rows : List TripLocRow) :
    (∀ r ∈ filter_trips rows,
      r.mode_type ∈ ([5, 6, 8, 9, 11] : List Int) ∧
      (r.o_in_region = 1 ∨ r.d_in_region = 1)) ∧
    List.Sublist (filter_trips rows) rows := by
  constructor
  · intro r hr
    have h := List.of_mem_filter hr
    simp only [Bool.and_eq_true, decide_eq_true_eq, Bool.or_eq_true, beq_iff_eq] at h
    exact h
  · exact List.filter_sublist rows

/-- Witness for C9 at a concrete one-row table. -/
theorem filter_trips_spec_witness :
    ({ trip_id := "T1", mode_type := 8, o_in_region := 1, d_in_region := 0 } :
      TripLocRow).mode_type ∈ ([5, 6, 8, 9, 11] : List Int) ∧
    (({ trip_id := "T1", mode_type := 8, o_in_region := 1, d_in_region := 0 } :
      TripLocRow).o_in_region = 1 ∨
     ({ trip_id := "T1", mode_type := 8, o_in_region := 1, d_in_region := 0 } :
      TripLocRow).d_in_region = 1) :=
  (filter_trips_spec
      [{ trip_id := "T1", mode_type := 8, o_in_region := 1, d_in_region := 0 }]).1
    { trip_id := "T1", mode_type := 8, o_in_region := 1, d_in_region := 0 }
    (by decide)

/-- Claim C1: any exception raised inside the try block of process_trace
(geofence construction, network download or truncation, or the LCSS match)
is converted to an unmatched result carrying the trip identifier, with the
triggering error description carried in the emitted warning, instead of
propagating; the remaining conjuncts show that a failure at each of the three
stages indeed surfaces as such an exception of the try block. -/
theorem process_trace_converts_exceptions (env : MatchEnv) (td : TraceDict)
    (download_local_OSM_map : Bool) (geofence_buffer network_type : Nat) (e : Exc)
    (h : matchAttempt env download_local_OSM_map geofence_buffer network_type td.trace =
      .error e) :
    process_trace env td download_local_OSM_map geofence_buffer network_type =
      ({ td with unmatched_trips := some (some td.trip_id) },
        ["The trace with trip_id " ++ td.trip_id ++ " encountered an exception: " ++ e.msg ++
          ". Adding trip to the unmatched list."]) ∧
    (∀ e0, env.geofenceFromTrace td.trace geofence_buffer = .error e0 →
      matchAttempt env download_local_OSM_map geofence_buffer network_type td.trace =
        .error e0) ∧
    (∀ g e0, env.geofenceFromTrace td.trace geofence_buffer = .ok g →
      (if download_local_OSM_map then env.nxMapFromGeofence g network_type
        else env.truncateGraphPolygon env.regionalMap g) = .error e0 →
      matchAttempt env download_local_OSM_map geofence_buffer network_type td.trace =
        .error e0) ∧
    (∀ g nx e0, env.geofenceFromTrace td.trace geofence_buffer = .ok g →
      (if download_local_OSM_map then env.nxMapFromGeofence g network_type
        else env.truncateGraphPolygon env.regionalMap g) = .ok nx →
      env.matchTrace nx td.trace = .error e0 →
      matchAttempt env download_local_OSM_map geofence_buffer network_type td.trace =
        .error e0) := by
  refine ⟨?_, ?_, ?_, ?_⟩
  · unfold process_trace
    rw [h]
    rfl
  · intro e0 h0
    simp [matchAttempt, h0]
  · intro g e0 h0 h1
    simp [matchAttempt, h0, h1]
  · intro g nx e0 h0 h1 h2
    simp [matchAttempt, h0, h1, h2]

/-- Witness for C1: a concrete trace whose geofence construction raises. -/
theorem process_trace_converts_exceptions_witness :
    process_trace sampleFailEnv sampleTd true 1000 0 =
      ({ sampleTd with unmatched_trips := some (some sampleTd.trip_id) },
        ["The trace with trip_id " ++ sampleTd.trip_id ++ " encountered an exception: " ++
          ("Geofence needs at least one coordinate" : String) ++
          ". Adding trip to the unmatched list."]) :=
  (process_trace_converts_exceptions sampleFailEnv sampleTd true 1000 0
    { msg := "Geofence needs at least one coordinate" } rfl).1

/-- Claim C2: when the match result contains an assignment with a null road,
process_trace marks the trace unmatched with its own trip id and populates
neither matched_gdf nor matched_path_gdf (given that, as produced by
create_batch_traces, the incoming dictionary does not carry them). -/
theorem process_trace_null_road_unmatched (env : MatchEnv) (td : TraceDict)
    (download_local_OSM_map : Bool) (geofence_buffer network_type : Nat)
    (nx : NxMapH) (mr : MatchResult)
    (hok : matchAttempt env download_local_OSM_map geofence_buffer network_type td.trace =
      .ok (nx, mr))
    (hnull : ∃ m ∈ mr.matchList, m.road = none)
    (hg : td.matched_gdf = none) (hp : td.matched_path_gdf = none) :
    (process_trace env td download_local_OSM_map geofence_buffer
        network_type).1.unmatched_trips = some (some td.trip_id) ∧
    (process_trace env td download_local_OSM_map geofence_buffer
        network_type).1.matched_gdf = none ∧
    (process_trace env td download_local_OSM_map geofence_buffer
        network_type).1.matched_path_gdf = none := by
  have hcheck : mr.matchList.all (fun m => m.road.isSome) = false := by
    obtain ⟨m, hm, hr⟩ := hnull
    simp only [List.all_eq_false]
    exact ⟨m, hm, by simp [hr]⟩
  unfold process_trace
  rw [hok]
  simp [hcheck, hg, hp]

/-- Witness for C2: a concrete match result holding one null-road match. -/
theorem process_trace_null_road_unmatched_witness :
    (process_trace sampleNullRoadEnv sampleTd true 1000 0).1.unmatched_trips =
        some (some sampleTd.trip_id) ∧
    (process_trace sampleNullRoadEnv sampleTd true 1000 0).1.matched_gdf = none ∧
    (process_trace sampleNullRoadEnv sampleTd true 1000 0).1.matched_path_gdf = none :=
  process_trace_null_road_unmatched sampleNullRoadEnv sampleTd true 1000 0 0
    { matchList := [{ road := none }], matchesTable := [], pathTable := [] }
    rfl ⟨{ road := none }, by decide, rfl⟩ rfl rfl

/-- Claim C4: a batch run yields exactly one result per submitted trip
identifier (the result trip ids are a permutation of the input trip ids) and
every result is explicitly marked matched or unmatched. -/
theorem batch_full_accounting (env : MatchEnv) (traces : List TraceDict)
    (download_local_OSM_map : Bool) (geofence_buffer network_type processes : Nat)
    (results : List TraceDict)
    (h : BatchRun env traces download_local_OSM_map geofence_buffer network_type
      processes results) :
    (results.map (fun td => td.trip_id)).Perm (traces.map (fun td => td.trip_id)) ∧
    ∀ r ∈ results, accountedFor r := by
  have hseq : ((seqRun env traces download_local_OSM_map geofence_buffer network_type).map
      (fun td => td.trip_id)).Perm (traces.map (fun td => td.trip_id)) := by
    rw [seqRun_map_trip_id]
  cases h with
  | seq =>
    refine ⟨hseq, ?_⟩
    intro r hr
    obtain ⟨td, _, rfl⟩ := List.mem_map.mp hr
    exact process_trace_accountedFor env td download_local_OSM_map geofence_buffer network_type
  | par processes results hne hperm =>
    refine ⟨(hperm.map _).trans hseq, ?_⟩
    intro r hr
    have hr2 := hperm.mem_iff.mp hr
    obtain ⟨td, _, rfl⟩ := List.mem_map.mp hr2
    exact process_trace_accountedFor env td download_local_OSM_map geofence_buffer network_type

/-- Witness for C4: the sequential batch over one concrete trace. -/
theorem batch_full_accounting_witness :
    ((seqRun sampleEnv [sampleTd] true 1000 0).map (fun td => td.trip_id)).Perm
      ([sampleTd].map (fun td => td.trip_id)) ∧
    ∀ r ∈ seqRun sampleEnv [sampleTd] true 1000 0, accountedFor r :=
  batch_full_accounting sampleEnv [sampleTd] true 1000 0 1
    (seqRun sampleEnv [sampleTd] true 1000 0) BatchRun.seq

/-- Claim C5: running the orchestrator with one process and with several
processes yields the same matched and unmatched trip identifiers (up to the
arrival-order permutation of the parallel run). -/
theorem batch_parallel_equiv (env : MatchEnv) (traces : List TraceDict)
    (download_local_OSM_map : Bool) (geofence_buffer network_type n : Nat)
    (r1 rn : List TraceDict)
    (h1 : BatchRun env traces download_local_OSM_map geofence_buffer network_type 1 r1)
    (hn : BatchRun env traces download_local_OSM_map geofence_buffer network_type n rn) :
    (matchedIds rn).Perm (matchedIds r1) ∧ (unmatchedIds rn).Perm (unmatchedIds r1) := by
  have e1 : r1 = seqRun env traces download_local_OSM_map geofence_buffer network_type := by
    cases h1 with
    | seq => rfl
    | par processes results hne hperm => exact absurd rfl hne
  have hn2 : rn.Perm (seqRun env traces download_local_OSM_map geofence_buffer network_type) := by
    cases hn with
    | seq => exact List.Perm.refl _
    | par processes results hne hperm => exact hperm
  subst e1
  exact ⟨(hn2.filter _).map _, (hn2.filter _).map _⟩

/-- Witness for C5: one process versus two processes on one concrete trace.
-/
theorem batch_parallel_equiv_witness :
    (matchedIds (seqRun sampleEnv [sampleTd] true 1000 0)).Perm
      (matchedIds (seqRun sampleEnv [sampleTd] true 1000 0)) ∧
    (unmatchedIds (seqRun sampleEnv [sampleTd] true 1000 0)).Perm
      (unmatchedIds (seqRun sampleEnv [sampleTd] true 1000 0)) :=
  batch_parallel_equiv sampleEnv [sampleTd] true 1000 0 2
    (seqRun sampleEnv [sampleTd] true 1000 0) (seqRun sampleEnv [sampleTd] true 1000 0)
    BatchRun.seq (BatchRun.par 2 (seqRun sampleEnv [sampleTd] true 1000 0) (by decide)
      (List.Perm.refl _))

/-- Counterexample to C8 as stated: a matched table whose road_id column
holds the tuple produced by line 257 passes through concatenate_matched_gdfs
with the tuple — a sequence value — still in a cell, because line 469 only
converts isinstance(x, list) cells and tuples are not lists. -/
theorem concatenate_seq_cell_counterexample :
    ∃ p ∈ concatenate_matched_gdfs
        [{ trip_id := "T1", trace := 0,
           matched_gdf := some [("road_id", [Cell.tup [.int 1, .int 2, .int 0]])] }]
        MatchType.matched_gdf,
      ∃ c ∈ p.2, cellIsSeq c = true := by
  decide

/-- Claim C8 (amended): after aggregation no cell of the returned table is a
Python list — every list-valued cell has been converted to its string
representation.  Tuple-valued cells (e.g. the composite road_id identifiers)
are not sequences the conversion touches and can persist. -/
theorem concatenate_no_list_cells (matched_traces : List TraceDict) (match_type : MatchType) :
    ∀ p ∈ concatenate_matched_gdfs matched_traces match_type, ∀ c ∈ p.2,
      cellIsList c = false := by
  intro p hp c hc
  simp only [concatenate_matched_gdfs] at hp
  split at hp
  · simp at hp
  · obtain ⟨q, hq, rfl⟩ := List.mem_map.mp hp
    cases hd : dtypeIsObject q.2 with
    | false =>
      simp only [hd, Bool.false_eq_true, if_false] at hc
      unfold dtypeIsObject at hd
      rw [List.any_eq_false] at hd
      cases c with
      | atom a => rfl
      | list l => exact absurd (hd _ hc) (by simp)
      | tup l => rfl
    | true =>
      cases hl : q.2.any cellIsList with
      | false =>
        simp only [hd, hl, Bool.false_eq_true, if_true, if_false] at hc
        rw [List.any_eq_false] at hl
        simpa using hl c hc
      | true =>
        simp only [hd, hl, if_true] at hc
        obtain ⟨c0, _, rfl⟩ := List.mem_map.mp hc
        exact cellIsList_listToStrCell c0


theorem firstMinBy_mem {α : Type} (f : α → Int) (l : List α) (a : α)
    (h : firstMinBy f l = some a) : a ∈ l := by
  induction l with
  | nil => simp [firstMinBy] at h
  | cons x rest ih =>
    rw [firstMinBy] at h
    split at h
    · cases h
      exact List.mem_cons_self _ _
    · rename_i b heq
      split at h
      · cases h
        exact List.mem_cons_self _ _
      · cases h
        exact List.mem_cons_of_mem _ (ih heq)

theorem firstMinBy_le {α : Type} (f : α → Int) (l : List α) :
    ∀ a, firstMinBy f l = some a → ∀ b ∈ l, f a ≤ f b := by
  induction l with
  | nil => intro a h; simp [firstMinBy] at h
  | cons x rest ih =>
    intro a h
    rw [firstMinBy] at h
    split at h
    · rename_i heq
      cases h
      intro b hb
      rcases List.mem_cons.mp hb with rfl | hb2
      · exact le_refl _
      · cases rest with
        | nil => simp at hb2
        | cons y t =>
          rw [firstMinBy] at heq
          split at heq
          · cases heq
          · split at heq <;> cases heq
    · rename_i c heq
      split at h
      · rename_i hle
        cases h
        intro b hb
        rcases List.mem_cons.mp hb with rfl | hb2
        · exact le_refl _
        · exact le_trans hle (ih c heq b hb2)
      · rename_i hle
        cases h
        intro b hb
        rcases List.mem_cons.mp hb with rfl | hb2
        · exact le_of_lt (lt_of_not_le hle)
        · exact ih a heq b hb2

theorem firstMinBy_isSome {α : Type} (f : α → Int) (l : List α) (h : l ≠ []) :
    (firstMinBy f l).isSome = true := by
  cases l with
  | nil => exact absurd rfl h
  | cons x rest =>
    rw [firstMinBy]
    split
    · rfl
    · split
      · rfl
      · rfl

theorem length_filterMap_isSome {α β : Type} (f : α → Option β) (l : List α) :
    (l.filterMap f).length = (l.filter (fun a => (f a).isSome)).length := by
  induction l with
  | nil => rfl
  | cons a rest ih =>
    cases h : f a with
    | none => simp [List.filterMap_cons, List.filter_cons, h, ih]
    | some b => simp [List.filterMap_cons, List.filter_cons, h, ih]

theorem length_reduceOption_map {α β : Type} (f : α → Option β) (l : List α) :
    ((l.map f).reduceOption).length = (l.filter (fun a => (f a).isSome)).length := by
  have hrw : (l.map f).reduceOption = l.filterMap f := by
    simp [List.reduceOption, List.filterMap_map]
  rw [hrw]
  exact length_filterMap_isSome f l

/-- Claim C6: if the cached regional network file exists it is loaded and
returned with no new network constructed and the file untouched; otherwise a
network bounded by the region geometry is constructed from the external map
source, persisted to the cache path, and returned. -/
theorem nx_map_from_geojson_cache (env : NetProviderEnv) (geojson_path : String)
    (fs : FileState) (network_type : Nat) :
    (∀ m, fs.localNetworkFile = some m →
      nx_map_from_geojson env geojson_path fs network_type = (m, fs, false)) ∧
    (fs.localNetworkFile = none →
      nx_map_from_geojson env geojson_path fs network_type =
        (env.nxMapFromGeofenceNet (env.geofenceFromGeojson geojson_path) network_type,
          { localNetworkFile :=
              some (env.nxMapFromGeofenceNet (env.geofenceFromGeojson geojson_path)
                network_type) },
          true)) := by
  constructor
  · intro m hm
    simp [nx_map_from_geojson, hm]
  · intro hn
    simp [nx_map_from_geojson, hn]

/-- Witness for C6: one call against an existing cache file, one against a
missing one. -/
theorem nx_map_from_geojson_cache_witness :
    nx_map_from_geojson sampleNetEnv "region.geojson" { localNetworkFile := some 3 } 0 =
      (3, { localNetworkFile := some 3 }, false) ∧
    nx_map_from_geojson sampleNetEnv "region.geojson" { localNetworkFile := none } 0 =
      (sampleNetEnv.nxMapFromGeofenceNet (sampleNetEnv.geofenceFromGeojson "region.geojson") 0,
        { localNetworkFile :=
            some (sampleNetEnv.nxMapFromGeofenceNet
              (sampleNetEnv.geofenceFromGeojson "region.geojson") 0) },
        true) :=
  ⟨(nx_map_from_geojson_cache sampleNetEnv "region.geojson"
      { localNetworkFile := some 3 } 0).1 3 rfl,
   (nx_map_from_geojson_cache sampleNetEnv "region.geojson"
      { localNetworkFile := none } 0).2 rfl⟩

/-- Claim C3: for a static feature, the conflator returns none exactly when
no candidate bounding box intersects the feature's bounding box; a returned
edge is a candidate of minimum exact geometric distance; and in the batch the
features with no result are silently absent — the output has exactly one
entry per feature whose match is not None. -/
theorem conflate_nearest_edge {G : Type} (ops : GeomOps G) (line : G)
    (edges : List (OsmEdge G)) :
    (_match_line_to_osm ops line edges = none ↔ lineCandidates ops line edges = []) ∧
    (∀ e, _match_line_to_osm ops line edges = some e →
      e ∈ lineCandidates ops line edges ∧
      ∀ c ∈ lineCandidates ops line edges,
        ops.dist e.geometry line ≤ ops.dist c.geometry line) ∧
    (∀ input_lines : List G,
      (conflate_with_osm ops input_lines edges none).length =
        (input_lines.filter (fun l => (_match_line_to_osm ops l edges).isSome)).length) := by
  refine ⟨?_, ?_, ?_⟩
  · constructor
    · intro h
      simp only [_match_line_to_osm] at h
      by_cases hem : (lineCandidates ops line edges).isEmpty
      · exact List.isEmpty_iff.mp hem
      · rw [if_neg hem] at h
        have hne : lineCandidates ops line edges ≠ [] := by
          intro hc
          exact hem (by simp [hc])
        have := firstMinBy_isSome (fun e => ops.dist e.geometry line)
          (lineCandidates ops line edges) hne
        rw [h] at this
        cases this
    · intro h
      simp only [_match_line_to_osm]
      rw [if_pos (by simp [h])]
  · intro e he
    simp only [_match_line_to_osm] at he
    by_cases hem : (lineCandidates ops line edges).isEmpty
    · rw [if_pos hem] at he
      cases he
    · rw [if_neg hem] at he
      exact ⟨firstMinBy_mem _ _ _ he, firstMinBy_le _ _ e he⟩
  · intro input_lines
    exact length_reduceOption_map (fun l => _match_line_to_osm ops l edges) input_lines

/-- Witness for C3, spec scenario C: three features against a two-edge
network; the far feature has no candidates and contributes no output entry,
the overlapping feature matches its nearest edge E1. -/
theorem conflate_nearest_edge_witness :
    (_match_line_to_osm sampleOps 30 sampleEdges = none ↔
      lineCandidates sampleOps 30 sampleEdges = []) ∧
    (sampleE1 ∈ lineCandidates sampleOps 10 sampleEdges ∧
      ∀ c ∈ lineCandidates sampleOps 10 sampleEdges,
        sampleOps.dist sampleE1.geometry 10 ≤ sampleOps.dist c.geometry 10) ∧
    (conflate_with_osm sampleOps [10, 20, 30] sampleEdges none).length =
      (([10, 20, 30] : List Nat).filter
        (fun l => (_match_line_to_osm sampleOps l sampleEdges).isSome)).length :=
  ⟨(conflate_nearest_edge sampleOps 30 sampleEdges).1,
   (conflate_nearest_edge sampleOps 10 sampleEdges).2.1 sampleE1 (by decide),
   (conflate_nearest_edge sampleOps 10 sampleEdges).2.2 [10, 20, 30]⟩

/-- Witness for the amended C8 theorem: a concrete list-valued osmid cell
emerges from the aggregation as its string rendering, not as a list. -/
theorem concatenate_no_list_cells_witness :
    cellIsList (Cell.atom (Atom.str "[1, 2]")) = false :=
  concatenate_no_list_cells
    [{ trip_id := "T1", trace := 0,
       matched_gdf := some [("osmid", [Cell.list [.int 1, .int 2]])] }]
    MatchType.matched_gdf
    ("osmid", [Cell.atom (Atom.str "[1, 2]")]) (by decide)
    (Cell.atom (Atom.str "[1, 2]")) (by decide)
